import Mathlib

/-
Verification of the cookie-session library (mrsimonemms/cookie-session).

The repository evolves one class, CookieSession, across several iterations;
the final iteration (the jwt-based codec, exercised by the jest test-suite)
is the one embedded here.  Its pieces:

  - option resolution and validation  (applyDefaultOpts / validate),
  - the token codec                   (encryptData / decryptData over jwt),
  - the flash-aware data store        (getDataItem / proxyData),
  - the lifecycle controller          (sessionId / loadCookieData /
                                       regenerate / saveCookieData),
  - the express middleware adapter    (express / createSessionObject and
                                       the res.end interception).

Session data is a JavaScript object mapping string keys to values.  We model
it as an association list with unique keys (dataGet / dataSet / dataErase
implement property read, assignment and delete).  Values are JSON values
(one structural level suffices for every property proved here) extended with
a function marker, because the middleware stores compatibility helper
functions in the same map.

The jsonwebtoken collaborator is modelled abstractly but faithfully to its
documented semantics: sign produces a payload carrying the session map, the
signing key, an expiry of iat + expiresIn and a not-before of iat +
notBefore, all in seconds; verify succeeds exactly when the key matches, the
clock is not before nbf, and the clock is strictly before exp, and otherwise
throws (modelled as Except.error).  A perfect-MAC abstraction is used: a
token records the key it was signed with, and signature verification is key
equality.  Strings that are not tokens at all are Token.malformed.

Time is a natural number of seconds (the unit jwt works in).  randomUUID is
modelled by passing the freshly generated string as an explicit argument.
-/

/-- Primitive JSON values. -/
inductive Prim
  | null
  | boolean (b : Bool)
  | num (n : Int)
  | str (s : String)
  deriving DecidableEq, Repr

/-- JSON values: a primitive, an array or an object (one structural level,
which is all the proved properties inspect). -/
inductive JVal
  | prim (p : Prim)
  | arr (xs : List Prim)
  | obj (fs : List (String × Prim))
  deriving DecidableEq, Repr

/-- Values storable in the session object: a JSON value, or a function
value (the express adapter stores its compatibility helpers in the session
map); fnV carries a tag naming the helper. -/
inductive Value
  | json (j : JVal)
  | fnV (tag : String)
  deriving DecidableEq, Repr

/-- Shorthand for a JSON string value. -/
def strVal (s : String) : Value := Value.json (JVal.prim (Prim.str s))

/-- JavaScript truthiness of a primitive. -/
def Prim.truthy : Prim → Bool
  | .null => false
  | .boolean b => b
  | .num n => n != 0
  | .str s => s != ""

/-- JavaScript truthiness of a JSON value (arrays and objects are truthy). -/
def JVal.truthy : JVal → Bool
  | .prim p => p.truthy
  | .arr _ => true
  | .obj _ => true

/-- JavaScript truthiness of a stored value (functions are truthy). -/
def Value.truthy : Value → Bool
  | .json j => j.truthy
  | .fnV _ => true

/-- The session data map: a JavaScript object modelled as an association
list with unique keys. -/
abbrev Data := List (String × Value)

/-- Property read on the data map, target[prop]; none models undefined. -/
def dataGet : Data → String → Option Value
  | [], _ => none
  | (k₀, v₀) :: rest, k => if k₀ = k then some v₀ else dataGet rest k

/-- Property assignment on the data map: overwrite in place when the key
exists, append otherwise. -/
def dataSet : Data → String → Value → Data
  | [], k, v => [(k, v)]
  | (k₀, v₀) :: rest, k, v =>
      if k₀ = k then (k, v) :: rest else (k₀, v₀) :: dataSet rest k v

/-- The delete operator on the data map: the entry for the key is removed. -/
def dataErase : Data → String → Data
  | [], _ => []
  | (k₀, v₀) :: rest, k =>
      if k₀ = k then dataErase rest k else (k₀, v₀) :: dataErase rest k

/-- A data map is JSON-serializable when no entry holds a function value. -/
def jsonSerializableB (d : Data) : Bool :=
  d.all (fun p =>
    match p.2 with
    | .json _ => true
    | .fnV _ => false)

/-- Effect of JSON serialization on the data map: function-valued entries
are dropped (JSON.stringify omits function-valued properties). -/
def jsonClean (d : Data) : Data :=
  d.filter (fun p =>
    match p.2 with
    | .json _ => true
    | .fnV _ => false)

/-- Cookie transport attributes (the fields of the cookies SetOption type
that the library touches, plus representative passthrough attributes). -/
structure CookieOpts where
  path : Option String := none
  signed : Option Bool := none
  secure : Option Bool := none
  httpOnly : Option Bool := none
  maxAge : Option Nat := none
  domain : Option String := none
  sameSite : Option String := none
  deriving DecidableEq, Repr

/-- The ICookieSessionOpts interface: the partial configuration supplied by
the caller.  The secret is an Option so that an absent secret is
representable (the validate check treats a missing or empty secret alike). -/
structure ICookieSessionOpts where
  duration : Option Nat := none
  flash : Option Bool := none
  name : Option String := none
  secret : Option String := none
  cookie : Option CookieOpts := none
  deriving DecidableEq, Repr

/-- The configuration after applyDefaultOpts has run: every defaultable
field is resolved. -/
structure ResolvedOpts where
  duration : Nat
  flash : Bool
  name : String
  secret : Option String
  cookie : CookieOpts
  deriving DecidableEq, Repr

/-- Construction failure: the InvalidSecret error thrown by validate. -/
inductive ConstructError
  | invalidSecret
  deriving DecidableEq, Repr

/-- Payload signed into a token: the object carrying the session field,
mirroring jwt.sign applied to the session wrapper object. -/
structure JwtPayload where
  session : Data
  deriving DecidableEq, Repr

/-- A token string, viewed through the jwt abstraction: either a well-formed
token recording its payload, signing key, expiry and not-before instants
(seconds), or a malformed string. -/
inductive Token
  | signed (payload : JwtPayload) (key : Option String) (exp : Nat) (nbf : Nat)
  | malformed (raw : String)
  deriving DecidableEq, Repr

/-- Reasons jwt.verify throws. -/
inductive VerifyError
  | malformed
  | badSignature
  | notActive
  | expired
  deriving DecidableEq, Repr

/-- Model of jwt.sign: stamps iat with the current clock (seconds) and
derives exp and nbf from the expiresIn and notBefore options; the payload
object is JSON-serialized, which drops function-valued properties of the
session map. -/
def jwtSign (payload : JwtPayload) (key : Option String)
    (notBefore expiresIn : Nat) (now : Nat) : Token :=
  Token.signed ⟨jsonClean payload.session⟩ key (now + expiresIn) (now + notBefore)

/-- Model of jwt.verify: fails on a malformed token, a missing or mismatched
key, a clock before nbf, or a clock at or past exp; otherwise returns the
payload. -/
def jwtVerify (tok : Token) (key : Option String) (now : Nat) :
    Except VerifyError JwtPayload :=
  match tok with
  | .malformed _ => .error .malformed
  | .signed payload k e n =>
      if key.isNone then .error .badSignature
      else if k ≠ key then .error .badSignature
      else if now < n then .error .notActive
      else if e ≤ now then .error .expired
      else .ok payload

/-- Nat model of the JavaScript expression Math.round(a / b) for b > 0:
round half up, computed as the floor of (2a + b) / 2b. -/
def mathRoundDiv (a b : Nat) : Nat := (2 * a + b) / (2 * b)

/-- Transport failure while reading the inbound cookie (the cookies
collaborator throwing), per the §6 collaborator contract. -/
inductive TransportError
  | transportFailure (msg : String)
  deriving DecidableEq, Repr

namespace CookieSession

/-- The applyDefaultOpts method: duration, flash and name default
independently; the cookie map defaults to empty and is then copied with
path defaulted to the root path, every other supplied attribute kept. -/
def applyDefaultOpts (opts : ICookieSessionOpts) : ResolvedOpts :=
  let cookie := opts.cookie.getD {}
  { duration := opts.duration.getD (24 * 60 * 60 * 1000)
    flash := opts.flash.getD false
    name := opts.name.getD "session"
    secret := opts.secret
    cookie := { cookie with path := some (cookie.path.getD "/") } }

/-- The validate method: throws InvalidSecret when the secret is absent or
shorter than 16 characters (a falsy empty secret has length 0 and is caught
by the length test). -/
def validate (opts : ResolvedOpts) : Except ConstructError Unit :=
  match opts.secret with
  | none => .error .invalidSecret
  | some s => if s.length < 16 then .error .invalidSecret else .ok ()

/-- Controller state: the resolved options, the data map, and whether the
data map is currently wrapped in the flash-aware Proxy (proxyData). -/
structure CtlState where
  opts : ResolvedOpts
  data : Data
  wrapped : Bool
  deriving DecidableEq, Repr

/-- The CookieSession constructor: applyDefaultOpts, then validate, and only
on success is the state (with its cookie transport binding and empty data)
produced; a validation failure yields the error with no state constructed. -/
def construct (opts : ICookieSessionOpts) : Except ConstructError CtlState :=
  let resolved := applyDefaultOpts opts
  match validate resolved with
  | .error e => .error e
  | .ok _ => .ok { opts := resolved, data := [], wrapped := false }

/-- The sessionId getter: when the id entry is falsy or absent, a fresh UUID
(passed as the fresh argument) is stored under id first; returns the id
value together with the possibly updated data map. -/
def sessionId (data : Data) (fresh : String) : Value × Data :=
  match dataGet data "id" with
  | some v =>
      if v.truthy then (v, data)
      else (strVal fresh, dataSet data "id" (strVal fresh))
  | none => (strVal fresh, dataSet data "id" (strVal fresh))

/-- The getDataItem trap: reads the value, and when flash is on and the key
is not the reserved id key, deletes the entry as a side effect; returns the
value read together with the updated data map. -/
def getDataItem (flash : Bool) (data : Data) (prop : String) :
    Option Value × Data :=
  let value := dataGet data prop
  if flash && prop != "id" then (value, dataErase data prop)
  else (value, data)

/-- The proxyData method: wraps the data map in the flash-aware Proxy.  The
Proxy itself is a JavaScript mechanism; here the wrapping is recorded by the
wrapped flag, and reads through the wrapper are getDataItem. -/
def proxyData (st : CtlState) : CtlState := { st with wrapped := true }

/-- The encryptData method: jwt.sign of the session wrapper object with the
secret, notBefore 0 and expiresIn Math.round(duration / 1000). -/
def encryptData (opts : ResolvedOpts) (data : Data) (now : Nat) : Token :=
  jwtSign ⟨data⟩ opts.secret 0 (mathRoundDiv opts.duration 1000) now

/-- The decryptData method: jwt.verify with the secret, returning the
session field of the payload; every verification failure is caught and an
empty object is returned instead. -/
def decryptData (opts : ResolvedOpts) (input : Token) (now : Nat) : Data :=
  match jwtVerify input opts.secret now with
  | .ok p => p.session
  | .error _ => []

/-- The loadCookieData method.  The inbound cookie read is an Except: an
error models the cookies collaborator throwing, ok none an absent cookie,
ok some a present cookie value.  When the cookie is present its decryption
result replaces the data map wholesale (decryptData returns an object,
which is always truthy, so the replacement is unconditional); in every
non-throwing case the method finishes by proxy-wrapping the data. -/
def loadCookieData (st : CtlState)
    (cookie : Except TransportError (Option Token)) (now : Nat) :
    Except TransportError CtlState :=
  match cookie with
  | .error e => .error e
  | .ok none => .ok (proxyData st)
  | .ok (some encData) =>
      let cookieData := decryptData st.opts encData now
      .ok (proxyData { st with data := cookieData })

/-- The regenerate method: replaces the data map by an object holding only
the id key, freshly generated when newId is true and read from the
sessionId getter (evaluated on the old map, before replacement) otherwise;
then re-wraps the map via proxyData. -/
def regenerate (st : CtlState) (newId : Bool) (fresh : String) : CtlState :=
  let idVal := if newId then strVal fresh else (sessionId st.data fresh).1
  proxyData { st with data := [("id", idVal)] }

/-- The saveCookieData method: writes the encrypted data under the
configured cookie name with the configured cookie attributes; returns the
triple handed to the cookie transport set call. -/
def saveCookieData (st : CtlState) (now : Nat) : String × Token × CookieOpts :=
  (st.opts.name, encryptData st.opts st.data now, st.opts.cookie)

end CookieSession

/-- The createSessionObject helper of the express adapter: reading
cookieSession.sessionId for req.sessionID (which lazily stores the id in
the data map), then storing the destroy, regenerate, reload, save and touch
compatibility helpers as properties of the session map. -/
def createSessionObject (data : Data) (fresh : String) : Data :=
  let afterId := (CookieSession.sessionId data fresh).2
  let d₁ := dataSet afterId "destroy" (Value.fnV "destroy")
  let d₂ := dataSet d₁ "regenerate" (Value.fnV "regenerate")
  let d₃ := dataSet d₂ "reload" (Value.fnV "reload")
  let d₄ := dataSet d₃ "save" (Value.fnV "save")
  dataSet d₄ "touch" (Value.fnV "touch")

/-- Request-level failures the express adapter reports through next. -/
inductive MwError
  | redeclareSession
  | loadError (e : TransportError)
  deriving DecidableEq, Repr

/-- Observable events of one run of the express middleware handler. -/
inductive MwEv
  | nextErr (e : MwError)
  | attachSession
  | installEndPatch
  | nextOk
  | constructThrow (e : ConstructError)
  deriving DecidableEq, Repr

namespace CookieSession

/-- The express middleware handler, as the sequence of observable events of
one request: an already attached session is reported through next and
nothing else happens; a constructor throw escapes the async handler
(constructThrow); a loadCookieData failure is caught and reported through
next and nothing else happens; otherwise the session object is attached,
the res.end interception is installed, and next is called with no error. -/
def express (opts : ICookieSessionOpts) (hasSession : Bool)
    (cookie : Except TransportError (Option Token)) (now : Nat) : List MwEv :=
  if hasSession then [MwEv.nextErr MwError.redeclareSession]
  else
    match construct opts with
    | .error e => [MwEv.constructThrow e]
    | .ok st =>
        match loadCookieData st cookie now with
        | .error e => [MwEv.nextErr (MwError.loadError e)]
        | .ok _ => [MwEv.attachSession, MwEv.installEndPatch, MwEv.nextOk]

end CookieSession

/-- Observable events of the patched res.end: the saveCookieData await, and
the invocation of the original end with its argument triple. -/
inductive RespEv (α : Type)
  | saveCookieData
  | origEnd (args : α)
  deriving DecidableEq, Repr

/-- The patched res.end installed by the express adapter: awaits
saveCookieData, then calls the original end with exactly the chunk,
encoding and callback it itself received. -/
def patchedEnd {α β γ : Type} (chunk : α) (encoding : β) (cb : γ) :
    List (RespEv (α × β × γ)) :=
  [RespEv.saveCookieData, RespEv.origEnd (chunk, encoding, cb)]

/-
Concrete inputs used by witnesses and counterexamples.
-/

/-- A 16-character secret accepted by validate. -/
def secretOk : String := "0123456789abcdef"

/-- Caller options with a valid secret and everything else omitted. -/
def optsMinimal : ICookieSessionOpts := { secret := some secretOk }

/-- Fully resolved options derived from optsMinimal. -/
def roptsDefault : ResolvedOpts := CookieSession.applyDefaultOpts optsMinimal

/-- Caller options with a valid secret and a zero duration. -/
def optsDur0 : ICookieSessionOpts := { secret := some secretOk, duration := some 0 }

/-- Controller state produced by constructing with optsDur0. -/
def ctlDur0 : CookieSession.CtlState :=
  { opts := CookieSession.applyDefaultOpts optsDur0, data := [], wrapped := false }

/-- A one-entry JSON-serializable data map. -/
def dHello : Data := [("hello", strVal "world")]

/-- Caller options supplying every field, for default-preservation checks. -/
def optsFull : ICookieSessionOpts :=
  { duration := some 1000, flash := some true, name := some "sess2",
    secret := some secretOk,
    cookie := some { domain := some "example.com", maxAge := some 55 } }

/-- Caller options with a valid secret and a large explicit duration. -/
def optsFullDuration : ICookieSessionOpts :=
  { secret := some secretOk, duration := some 1234567890 }

/-- Controller state holding an existing session identity. -/
def ctlWithId : CookieSession.CtlState :=
  { opts := roptsDefault, data := [("id", strVal "old-id"), ("x", strVal "1")],
    wrapped := true }

/-
Helper lemmas about the data-map operations.
-/

theorem dataGet_dataSet_self (d : Data) (k : String) (v : Value) :
    dataGet (dataSet d k v) k = some v := by
  induction d with
  | nil => simp [dataSet, dataGet]
  | cons p rest ih =>
      obtain ⟨k₀, v₀⟩ := p
      by_cases h : k₀ = k
      · simp [dataSet, dataGet, h]
      · simp [dataSet, dataGet, h, ih]

theorem dataGet_dataSet_ne (d : Data) (k k₂ : String) (v : Value) (h : k₂ ≠ k) :
    dataGet (dataSet d k v) k₂ = dataGet d k₂ := by
  have h2 : k ≠ k₂ := Ne.symm h
  induction d with
  | nil => simp [dataSet, dataGet, h2]
  | cons p rest ih =>
      obtain ⟨k₀, v₀⟩ := p
      by_cases hk : k₀ = k
      · subst hk
        simp [dataSet, dataGet, h2]
      · simp [dataSet, dataGet, hk, ih]

theorem dataGet_dataErase_self (d : Data) (k : String) :
    dataGet (dataErase d k) k = none := by
  induction d with
  | nil => simp [dataErase, dataGet]
  | cons p rest ih =>
      obtain ⟨k₀, v₀⟩ := p
      by_cases h : k₀ = k
      · simp [dataErase, h, ih]
      · simp [dataErase, dataGet, h, ih]

theorem dataGet_dataErase_ne (d : Data) (k k₂ : String) (h : k₂ ≠ k) :
    dataGet (dataErase d k) k₂ = dataGet d k₂ := by
  have h2 : k ≠ k₂ := Ne.symm h
  induction d with
  | nil => simp [dataErase]
  | cons p rest ih =>
      obtain ⟨k₀, v₀⟩ := p
      by_cases hk : k₀ = k
      · subst hk
        simp [dataErase, dataGet, h2, ih]
      · simp [dataErase, dataGet, hk, ih]

theorem jsonClean_eq_self (d : Data) (h : jsonSerializableB d = true) :
    jsonClean d = d := by
  rw [jsonClean, List.filter_eq_self]
  intro a ha
  exact List.all_eq_true.mp h a ha

theorem decryptData_eq_empty_of_not_ok (opts : ResolvedOpts) (tok : Token)
    (now : Nat) (h : ∀ p, jwtVerify tok opts.secret now ≠ Except.ok p) :
    CookieSession.decryptData opts tok now = [] := by
  unfold CookieSession.decryptData
  cases hv : jwtVerify tok opts.secret now with
  | ok p => exact absurd hv (h p)
  | error e => rfl

/-
Claim theorems.
-/

/-- C3: constructing a CookieSession fails with InvalidSecret exactly when
the secret is absent or shorter than 16 characters; for any secret of
length at least 16 construction succeeds, producing the resolved options
with empty, unwrapped data — the Except shape of construct mirrors the fact
that validate throws before the cookie object or any data is built. -/
theorem C3_construct_validation (opts : ICookieSessionOpts) :
    (CookieSession.construct opts = Except.error ConstructError.invalidSecret ↔
      opts.secret = none ∨ ∃ s, opts.secret = some s ∧ s.length < 16) ∧
    ∀ s, opts.secret = some s → 16 ≤ s.length →
      CookieSession.construct opts =
        Except.ok { opts := CookieSession.applyDefaultOpts opts, data := [],
                    wrapped := false } := by
  have hsec : (CookieSession.applyDefaultOpts opts).secret = opts.secret := rfl
  cases h : opts.secret with
  | none =>
      constructor
      · simp [CookieSession.construct, CookieSession.validate, hsec, h]
      · intro s hs
        exact absurd hs (by simp)
  | some s =>
      by_cases hl : s.length < 16
      · constructor
        · simp [CookieSession.construct, CookieSession.validate, hsec, h, hl]
        · intro s₂ hs₂ hlen
          cases hs₂
          omega
      · constructor
        · simp [CookieSession.construct, CookieSession.validate, hsec, h, hl]
        · intro s₂ hs₂ hlen
          simp [CookieSession.construct, CookieSession.validate, hsec, h, hl]

/-- C3 witness: construction with the 16-character secret succeeds. -/
theorem C3_construct_validation_witness :
    CookieSession.construct optsMinimal =
      Except.ok { opts := CookieSession.applyDefaultOpts optsMinimal, data := [],
                  wrapped := false } :=
  (C3_construct_validation optsMinimal).2 secretOk rfl (by decide)

/-- C4: option resolution defaults duration to 86400000, flash to false,
name to session and the cookie path to the root path exactly when the
corresponding field is omitted, preserves each supplied field, and carries
every other supplied cookie attribute through unchanged. -/
theorem C4_applyDefaultOpts (opts : ICookieSessionOpts) (s : String)
    (hs : opts.secret = some s) (hlen : 16 ≤ s.length) :
    (opts.duration = none →
      (CookieSession.applyDefaultOpts opts).duration = 86400000) ∧
    (∀ n, opts.duration = some n →
      (CookieSession.applyDefaultOpts opts).duration = n) ∧
    (opts.flash = none → (CookieSession.applyDefaultOpts opts).flash = false) ∧
    (∀ b, opts.flash = some b → (CookieSession.applyDefaultOpts opts).flash = b) ∧
    (opts.name = none → (CookieSession.applyDefaultOpts opts).name = "session") ∧
    (∀ nm, opts.name = some nm → (CookieSession.applyDefaultOpts opts).name = nm) ∧
    (CookieSession.applyDefaultOpts opts).secret = opts.secret ∧
    (opts.cookie = none →
      (CookieSession.applyDefaultOpts opts).cookie = { path := some "/" }) ∧
    (∀ c, opts.cookie = some c →
      (c.path = none →
        (CookieSession.applyDefaultOpts opts).cookie.path = some "/") ∧
      (∀ p, c.path = some p →
        (CookieSession.applyDefaultOpts opts).cookie.path = some p) ∧
      (CookieSession.applyDefaultOpts opts).cookie.signed = c.signed ∧
      (CookieSession.applyDefaultOpts opts).cookie.secure = c.secure ∧
      (CookieSession.applyDefaultOpts opts).cookie.httpOnly = c.httpOnly ∧
      (CookieSession.applyDefaultOpts opts).cookie.maxAge = c.maxAge ∧
      (CookieSession.applyDefaultOpts opts).cookie.domain = c.domain ∧
      (CookieSession.applyDefaultOpts opts).cookie.sameSite = c.sameSite) := by
  refine ⟨?_, ?_, ?_, ?_, ?_, ?_, rfl, ?_, ?_⟩
  · intro h
    simp [CookieSession.applyDefaultOpts, h]
  · intro n h
    simp [CookieSession.applyDefaultOpts, h]
  · intro h
    simp [CookieSession.applyDefaultOpts, h]
  · intro b h
    simp [CookieSession.applyDefaultOpts, h]
  · intro h
    simp [CookieSession.applyDefaultOpts, h]
  · intro nm h
    simp [CookieSession.applyDefaultOpts, h]
  · intro h
    simp [CookieSession.applyDefaultOpts, h]
  · intro c h
    refine ⟨fun hp => by simp [CookieSession.applyDefaultOpts, h, hp],
            fun p hp => by simp [CookieSession.applyDefaultOpts, h, hp],
            ?_, ?_, ?_, ?_, ?_, ?_⟩ <;>
      simp [CookieSession.applyDefaultOpts, h]

/-- C4 witness: every supplied field of optsFull is preserved and the
supplied cookie attributes pass through. -/
theorem C4_applyDefaultOpts_witness :
    (CookieSession.applyDefaultOpts optsFull).cookie.domain = some "example.com" :=
  ((C4_applyDefaultOpts optsFull secretOk rfl (by decide)).2.2.2.2.2.2.2.2
    { domain := some "example.com", maxAge := some 55 } rfl).2.2.2.2.2.2.1

/-- C1 counterexample: with the valid 16-character secret but a resolved
duration of 0 ms, Math.round(duration / 1000) is 0, so the token produced
by encryptData carries an expiry equal to its issue instant; jwt.verify
already reports it expired at that same instant and decryptData returns the
empty map, so decode of encode does not restore the data. -/
theorem C1_round_trip_counterexample :
    16 ≤ secretOk.length ∧
    CookieSession.construct optsDur0 = Except.ok ctlDur0 ∧
    jsonSerializableB dHello = true ∧
    CookieSession.decryptData ctlDur0.opts
      (CookieSession.encryptData ctlDur0.opts dHello 0) 0 ≠ dHello := by
  refine ⟨by decide, rfl, by decide, by decide⟩

/-- C1 (amended): for every JSON-serializable data map and every
configuration with a secret of length at least 16 whose resolved duration
is at least 500 ms, decryptData applied at the encoding instant to the
output of encryptData yields the original data map. -/
theorem C1_round_trip (opts : ResolvedOpts) (s : String)
    (hs : opts.secret = some s) (hlen : 16 ≤ s.length) (d : Data)
    (hd : jsonSerializableB d = true) (hdur : 500 ≤ opts.duration) (now : Nat) :
    CookieSession.decryptData opts (CookieSession.encryptData opts d now) now
      = d := by
  have hk : 1 ≤ mathRoundDiv opts.duration 1000 := by
    unfold mathRoundDiv
    omega
  unfold CookieSession.decryptData CookieSession.encryptData jwtSign jwtVerify
  rw [hs]
  simp only [Option.isNone_some, Bool.false_eq_true, if_false, ne_eq,
    not_true_eq_false, Nat.add_zero]
  rw [if_neg (by omega), if_neg (by omega)]
  exact jsonClean_eq_self d hd

/-- C1 witness: the round trip at the default duration restores the data. -/
theorem C1_round_trip_witness :
    CookieSession.decryptData roptsDefault
      (CookieSession.encryptData roptsDefault dHello 0) 0 = dHello :=
  C1_round_trip roptsDefault secretOk rfl (by decide) dHello (by decide)
    (by decide) 0

/-- C2: decryptData folds every verification failure into the empty data
map instead of raising: malformed tokens, tokens whose signing key does not
match the secret (including a missing secret), expired tokens and
not-yet-valid tokens all decode to the empty map; decryptData is a total
function, so no error reaches its caller, and loadCookieData on such a
cookie succeeds with the data map replaced by the empty map (then
proxy-wrapped), degrading to an empty session. -/
theorem C2_decrypt_fail_open (opts : ResolvedOpts) (now : Nat) :
    (∀ raw, CookieSession.decryptData opts (Token.malformed raw) now = []) ∧
    (∀ p k e n, k ≠ opts.secret →
      CookieSession.decryptData opts (Token.signed p k e n) now = []) ∧
    (opts.secret = none → ∀ p k e n,
      CookieSession.decryptData opts (Token.signed p k e n) now = []) ∧
    (∀ p e n, e ≤ now →
      CookieSession.decryptData opts (Token.signed p opts.secret e n) now = []) ∧
    (∀ p e n, now < n →
      CookieSession.decryptData opts (Token.signed p opts.secret e n) now = []) ∧
    (∀ st : CookieSession.CtlState, ∀ tok err,
      jwtVerify tok st.opts.secret now = Except.error err →
      CookieSession.loadCookieData st (Except.ok (some tok)) now =
        Except.ok (CookieSession.proxyData { st with data := [] })) := by
  refine ⟨fun raw => rfl, ?_, ?_, ?_, ?_, ?_⟩
  · intro p k e n h
    refine decryptData_eq_empty_of_not_ok opts _ now ?_
    intro p₂
    unfold jwtVerify
    split_ifs <;> simp_all
  · intro hnone p k e n
    refine decryptData_eq_empty_of_not_ok opts _ now ?_
    intro p₂
    unfold jwtVerify
    simp [hnone]
  · intro p e n h
    refine decryptData_eq_empty_of_not_ok opts _ now ?_
    intro p₂
    unfold jwtVerify
    split_ifs <;> simp_all <;> split_ifs <;> simp
  · intro p e n h
    refine decryptData_eq_empty_of_not_ok opts _ now ?_
    intro p₂
    unfold jwtVerify
    split_ifs <;> simp_all
  · intro st tok err hv
    simp only [CookieSession.loadCookieData, CookieSession.decryptData, hv]

/-- C2 witness: a token signed under a different key decodes to the empty
map. -/
theorem C2_decrypt_fail_open_witness :
    CookieSession.decryptData roptsDefault
      (Token.signed ⟨dHello⟩ (some "wrong-key-0123456") 100 0) 0 = [] :=
  (C2_decrypt_fail_open roptsDefault 0).2.1 ⟨dHello⟩ (some "wrong-key-0123456")
    100 0 (by decide)

/-- C5: encryptData produces a jwt token signed with the configured secret
whose payload is the session wrapper object around the data map, whose
not-before equals the encoding instant (zero skew), and whose expiry lies
round(duration / 1000) seconds after the encoding instant, where the
rounding is characterized as the half-up nearest integer to duration/1000. -/
theorem C5_encrypt_shape (opts : ResolvedOpts) (s : String)
    (hs : opts.secret = some s) (hlen : 16 ≤ s.length) (d : Data)
    (hd : jsonSerializableB d = true) (now : Nat) :
    ∃ k, CookieSession.encryptData opts d now =
        Token.signed ⟨d⟩ opts.secret (now + k) now ∧
      1000 * k ≤ opts.duration + 500 ∧
      opts.duration + 500 < 1000 * (k + 1) := by
  refine ⟨mathRoundDiv opts.duration 1000, ?_, ?_, ?_⟩
  · unfold CookieSession.encryptData jwtSign
    simp [jsonClean_eq_self d hd]
  · unfold mathRoundDiv
    omega
  · unfold mathRoundDiv
    omega

/-- C5 witness: at duration 1234567890 ms the embedded expiry is 1234568
seconds after encode time, which is the rounding of 1234567.89. -/
theorem C5_encrypt_shape_witness :
    ∃ k, CookieSession.encryptData
        (CookieSession.applyDefaultOpts optsFullDuration) dHello 7 =
        Token.signed ⟨dHello⟩
          (CookieSession.applyDefaultOpts optsFullDuration).secret (7 + k) 7 ∧
      1000 * k ≤ (CookieSession.applyDefaultOpts optsFullDuration).duration + 500 ∧
      (CookieSession.applyDefaultOpts optsFullDuration).duration + 500
        < 1000 * (k + 1) :=
  C5_encrypt_shape (CookieSession.applyDefaultOpts optsFullDuration) secretOk
    rfl (by decide) dHello (by decide) 7

theorem getDataItem_fst (flash : Bool) (d : Data) (k : String) :
    (CookieSession.getDataItem flash d k).1 = dataGet d k := by
  unfold CookieSession.getDataItem
  split_ifs <;> rfl

theorem getDataItem_flash_ne_id (d : Data) (k : String) (h : k ≠ "id") :
    CookieSession.getDataItem true d k = (dataGet d k, dataErase d k) := by
  have hb : (k != "id") = true := by simpa using h
  simp only [CookieSession.getDataItem, Bool.true_and, hb, if_true]

/-- C6: with flash on, reading a key other than id returns its current
value and deletes exactly that entry, so the key is absent on a subsequent
read while every other key is untouched; reading id returns its value and
leaves the map unchanged; with flash off every read returns the value and
mutates nothing. -/
theorem C6_flash_read_once (d : Data) (k : String) :
    (k ≠ "id" →
      (CookieSession.getDataItem true d k).1 = dataGet d k ∧
      dataGet (CookieSession.getDataItem true d k).2 k = none ∧
      ∀ k₂, k₂ ≠ k →
        dataGet (CookieSession.getDataItem true d k).2 k₂ = dataGet d k₂) ∧
    CookieSession.getDataItem true d "id" = (dataGet d "id", d) ∧
    CookieSession.getDataItem false d k = (dataGet d k, d) := by
  refine ⟨?_, ?_, ?_⟩
  · intro h
    rw [getDataItem_flash_ne_id d k h]
    exact ⟨rfl, dataGet_dataErase_self d k,
      fun k₂ hk => dataGet_dataErase_ne d k k₂ hk⟩
  · unfold CookieSession.getDataItem
    simp
  · unfold CookieSession.getDataItem
    simp

/-- C6 witness: a flash read of a non-identity key yields its value and a
second read finds nothing. -/
theorem C6_flash_read_once_witness :
    (CookieSession.getDataItem true [("a", strVal "1")] "a").1 =
        dataGet [("a", strVal "1")] "a" ∧
    dataGet (CookieSession.getDataItem true [("a", strVal "1")] "a").2 "a" =
        none :=
  ⟨((C6_flash_read_once [("a", strVal "1")] "a").1 (by decide)).1,
   ((C6_flash_read_once [("a", strVal "1")] "a").1 (by decide)).2.1⟩

/-- C7: regenerate always leaves a data map holding exactly the id entry;
with newId false the stored id is the sessionId read from the old map
(hence equal to a truthy id already present there); with newId true the
stored id is the freshly generated value, which differs from any prior id
differing from the fresh string; and in both cases the regenerated state is
re-wrapped by proxyData. -/
theorem C7_regenerate (st : CookieSession.CtlState) (fresh : String) :
    (∀ b, ∃ v, (CookieSession.regenerate st b fresh).data = [("id", v)]) ∧
    dataGet (CookieSession.regenerate st false fresh).data "id" =
      some (CookieSession.sessionId st.data fresh).1 ∧
    (∀ v, dataGet st.data "id" = some v → v.truthy = true →
      dataGet (CookieSession.regenerate st false fresh).data "id" = some v) ∧
    dataGet (CookieSession.regenerate st true fresh).data "id" =
      some (strVal fresh) ∧
    (∀ v, dataGet st.data "id" = some v → strVal fresh ≠ v →
      dataGet (CookieSession.regenerate st true fresh).data "id" ≠ some v) ∧
    (∀ b k, k ≠ "id" →
      dataGet (CookieSession.regenerate st b fresh).data k = none) ∧
    (∀ b, (CookieSession.regenerate st b fresh).wrapped = true) := by
  refine ⟨fun b => ⟨_, rfl⟩, ?_, ?_, ?_, ?_, ?_, fun b => rfl⟩
  · simp [CookieSession.regenerate, CookieSession.proxyData, dataGet]
  · intro v hv htr
    simp [CookieSession.regenerate, CookieSession.proxyData, dataGet,
      CookieSession.sessionId, hv, htr]
  · simp [CookieSession.regenerate, CookieSession.proxyData, dataGet]
  · intro v hv hne
    simp only [CookieSession.regenerate, CookieSession.proxyData, dataGet,
      if_pos rfl, if_true]
    simpa using hne
  · intro b k hk
    simp [CookieSession.regenerate, CookieSession.proxyData, dataGet,
      Ne.symm hk]

/-- C7 witness: regenerating with a new id over a map holding the id
old-id stores an id different from old-id. -/
theorem C7_regenerate_witness :
    dataGet (CookieSession.regenerate ctlWithId true "uuid-new").data "id" ≠
      some (strVal "old-id") :=
  (C7_regenerate ctlWithId "uuid-new").2.2.2.2.1 (strVal "old-id") (by decide)
    (by decide)

theorem dataGet_createSessionObject (d : Data) (fresh : String) :
    dataGet (createSessionObject d fresh) "destroy" = some (Value.fnV "destroy") ∧
    dataGet (createSessionObject d fresh) "regenerate" =
      some (Value.fnV "regenerate") ∧
    dataGet (createSessionObject d fresh) "reload" = some (Value.fnV "reload") ∧
    dataGet (createSessionObject d fresh) "save" = some (Value.fnV "save") ∧
    dataGet (createSessionObject d fresh) "touch" = some (Value.fnV "touch") := by
  simp only [createSessionObject]
  refine ⟨?_, ?_, ?_, ?_, ?_⟩
  · rw [dataGet_dataSet_ne _ _ _ _ (by decide), dataGet_dataSet_ne _ _ _ _ (by decide),
      dataGet_dataSet_ne _ _ _ _ (by decide), dataGet_dataSet_ne _ _ _ _ (by decide)]
    exact dataGet_dataSet_self _ _ _
  · rw [dataGet_dataSet_ne _ _ _ _ (by decide), dataGet_dataSet_ne _ _ _ _ (by decide),
      dataGet_dataSet_ne _ _ _ _ (by decide)]
    exact dataGet_dataSet_self _ _ _
  · rw [dataGet_dataSet_ne _ _ _ _ (by decide), dataGet_dataSet_ne _ _ _ _ (by decide)]
    exact dataGet_dataSet_self _ _ _
  · rw [dataGet_dataSet_ne _ _ _ _ (by decide)]
    exact dataGet_dataSet_self _ _ _
  · exact dataGet_dataSet_self _ _ _

/-- C10: under flash, the read-once deletion applies to every non-id key of
the session map built by createSessionObject, including the five
compatibility helpers the middleware stores there: the first read of each
helper returns it and removes it, so a second read finds nothing. -/
theorem C10_flash_deletes_helpers (d : Data) (fresh : String) :
    (∀ k, k ≠ "id" →
      dataGet
        (CookieSession.getDataItem true (createSessionObject d fresh) k).2 k =
        none) ∧
    ∀ k, k ∈ ["destroy", "regenerate", "reload", "save", "touch"] →
      (CookieSession.getDataItem true (createSessionObject d fresh) k).1 =
        some (Value.fnV k) ∧
      dataGet
        (CookieSession.getDataItem true (createSessionObject d fresh) k).2 k =
        none := by
  constructor
  · intro k hk
    rw [getDataItem_flash_ne_id _ k hk]
    exact dataGet_dataErase_self _ _
  · intro k hk
    have hlook := dataGet_createSessionObject d fresh
    fin_cases hk
    · exact ⟨(getDataItem_fst _ _ _).trans hlook.1,
        by rw [getDataItem_flash_ne_id _ _ (by decide)]
           exact dataGet_dataErase_self _ _⟩
    · exact ⟨(getDataItem_fst _ _ _).trans hlook.2.1,
        by rw [getDataItem_flash_ne_id _ _ (by decide)]
           exact dataGet_dataErase_self _ _⟩
    · exact ⟨(getDataItem_fst _ _ _).trans hlook.2.2.1,
        by rw [getDataItem_flash_ne_id _ _ (by decide)]
           exact dataGet_dataErase_self _ _⟩
    · exact ⟨(getDataItem_fst _ _ _).trans hlook.2.2.2.1,
        by rw [getDataItem_flash_ne_id _ _ (by decide)]
           exact dataGet_dataErase_self _ _⟩
    · exact ⟨(getDataItem_fst _ _ _).trans hlook.2.2.2.2,
        by rw [getDataItem_flash_ne_id _ _ (by decide)]
           exact dataGet_dataErase_self _ _⟩

/-- C10 witness: the destroy helper is readable exactly once from a freshly
attached session map. -/
theorem C10_flash_deletes_helpers_witness :
    (CookieSession.getDataItem true (createSessionObject [] "u1") "destroy").1 =
      some (Value.fnV "destroy") ∧
    dataGet
      (CookieSession.getDataItem true (createSessionObject [] "u1") "destroy").2
      "destroy" = none :=
  (C10_flash_deletes_helpers [] "u1").2 "destroy" (by decide)

/-- C8: in the patched res.end, every invocation of the original end is
preceded by the saveCookieData await and receives exactly the chunk,
encoding and callback the patched end received; and the end patch is only
installed on the success path, after a request with no prior session, a
successful construction and a successful cookie load. -/
theorem C8_save_before_original_end :
    (∀ (α β γ : Type) (chunk : α) (encoding : β) (cb : γ) (i : Nat)
      (hi : i < (patchedEnd chunk encoding cb).length)
      (a₂ : α) (b₂ : β) (c₂ : γ),
      (patchedEnd chunk encoding cb).get ⟨i, hi⟩ = RespEv.origEnd (a₂, b₂, c₂) →
      (a₂ = chunk ∧ b₂ = encoding ∧ c₂ = cb) ∧
      ∃ j, j < i ∧
        (patchedEnd chunk encoding cb).get? j = some RespEv.saveCookieData) ∧
    ∀ (opts : ICookieSessionOpts) (hasSession : Bool)
      (cookie : Except TransportError (Option Token)) (now : Nat),
      MwEv.installEndPatch ∈ CookieSession.express opts hasSession cookie now →
      hasSession = false ∧
      (∃ st, CookieSession.construct opts = Except.ok st) ∧
      ∃ v, cookie = Except.ok v := by
  constructor
  · intro α β γ chunk encoding cb i hi a₂ b₂ c₂ h
    have hi2 : i < 2 := by simpa [patchedEnd] using hi
    interval_cases i
    · exact absurd h (by simp [patchedEnd])
    · have h₂ : RespEv.origEnd (α := α × β × γ) (chunk, encoding, cb) =
          RespEv.origEnd (a₂, b₂, c₂) := h
      injection h₂ with h₃
      injection h₃ with ha hbc
      injection hbc with hb hc
      subst ha
      subst hb
      subst hc
      exact ⟨⟨rfl, rfl, rfl⟩, 0, Nat.zero_lt_one, rfl⟩
  · intro opts hasSession cookie now h
    cases hasSession with
    | true => simp [CookieSession.express] at h
    | false =>
        refine ⟨rfl, ?_⟩
        cases hc : CookieSession.construct opts with
        | error e => simp [CookieSession.express, hc] at h
        | ok st =>
            cases cookie with
            | error e =>
                simp [CookieSession.express, hc,
                  CookieSession.loadCookieData] at h
            | ok v => exact ⟨⟨st, rfl⟩, v, rfl⟩

/-- C8 witness: in a concrete patched end run, the original end at index 1
got the original argument triple and the save happened at index 0. -/
theorem C8_save_before_original_end_witness :
    ("c" = "c" ∧ "e" = "e" ∧ "k" = "k") ∧
    ∃ j, j < 1 ∧
      (patchedEnd "c" "e" "k").get? j = some RespEv.saveCookieData :=
  C8_save_before_original_end.1 String String String "c" "e" "k" 1 (by decide)
    "c" "e" "k" rfl

/-- C9: a request that already carries a session is reported through next
with the redeclare error and the trace is exactly that call; a
loadCookieData failure on a successfully constructed controller is reported
through next with the load error and the trace is exactly that call; in
both situations no session is attached, the end interception is not
installed, next is not called without an error, and no error escapes the
async handler uncaught. -/
theorem C9_per_request_failures (opts : ICookieSessionOpts)
    (cookie : Except TransportError (Option Token)) (now : Nat) :
    CookieSession.express opts true cookie now =
      [MwEv.nextErr MwError.redeclareSession] ∧
    (∀ st e, CookieSession.construct opts = Except.ok st →
      cookie = Except.error e →
      CookieSession.express opts false cookie now =
        [MwEv.nextErr (MwError.loadError e)]) ∧
    ∀ hasSession,
      (hasSession = true ∨
        ((∃ st, CookieSession.construct opts = Except.ok st) ∧
          ∃ e, cookie = Except.error e)) →
      MwEv.attachSession ∉ CookieSession.express opts hasSession cookie now ∧
      MwEv.installEndPatch ∉ CookieSession.express opts hasSession cookie now ∧
      MwEv.nextOk ∉ CookieSession.express opts hasSession cookie now ∧
      ∀ e₂, MwEv.constructThrow e₂ ∉
        CookieSession.express opts hasSession cookie now := by
  refine ⟨by simp [CookieSession.express], ?_, ?_⟩
  · intro st e hc he
    subst he
    simp [CookieSession.express, hc, CookieSession.loadCookieData]
  · intro hasSession hyp
    cases hasSession with
    | true => simp [CookieSession.express]
    | false =>
        rcases hyp with h1 | ⟨⟨st, hc⟩, e, he⟩
        · exact absurd h1 (by simp)
        · subst he
          simp [CookieSession.express, hc, CookieSession.loadCookieData]

/-- C9 witness: a concrete request already holding a session yields exactly
the next call with the redeclare error. -/
theorem C9_per_request_failures_witness :
    CookieSession.express optsMinimal true (Except.ok none) 0 =
      [MwEv.nextErr MwError.redeclareSession] :=
  (C9_per_request_failures optsMinimal (Except.ok none) 0).1
